import Mathlib

/-!
Verification of the RaveController_v1 test-harness protocol logic.

The repository consists of Python test scripts driving an LED controller
over a serial link.  The definitions below are shallow embeddings of the
protocol-relevant functions of those scripts: opcode tables, frame
construction, acknowledgement checking, the ACK-gated bulk-transfer loops,
and the reconnect procedure.  Serial input is modelled as explicit data
(lists of byte lists, optional responses, boolean acknowledgement streams);
each script function becomes a pure Lean function producing its result and,
where ordering matters, a trace of transport actions.
-/

set_option maxRecDepth 4000

namespace BinaryTest

/-- Embedding of the `CMD` opcode dictionary of `BinaryTest.py`
(lines 14-47); `CMD.get name` is `CMD name` here. -/
def CMD : String → Option Nat
  | "SET_COLOR" => some 0x01
  | "SET_EFFECT" => some 0x02
  | "SET_BRIGHTNESS" => some 0x03
  | "SET_SEG_BRIGHT" => some 0x04
  | "SELECT_SEGMENT" => some 0x05
  | "CLEAR_SEGMENTS" => some 0x06
  | "SET_SEG_RANGE" => some 0x07
  | "GET_STATUS" => some 0x08
  | "BATCH_CONFIG" => some 0x09
  | "SET_EFFECT_PARAMETER" => some 0x0A
  | "GET_EFFECT_INFO" => some 0x0B
  | "SET_LED_COUNT" => some 0x0C
  | "GET_LED_COUNT" => some 0x0D
  | "GET_ALL_SEGMENT_CONFIGS" => some 0x0E
  | "SET_ALL_SEGMENT_CONFIGS" => some 0x0F
  | "GET_ALL_EFFECTS" => some 0x10
  | "SET_SINGLE_SEGMENT_JSON" => some 0x11
  | "SAVE_CONFIG" => some 0x12
  | "ACK_GENERIC" => some 0xA0
  | "ACK_EFFECT_SET" => some 0xA1
  | "ACK_PARAM_SET" => some 0xA2
  | "ACK_CONFIG_SAVED" => some 0xA3
  | "ACK_RESTARTING" => some 0xA4
  | "NACK_UNKNOWN_CMD" => some 0xE0
  | "NACK_INVALID_PAYLOAD" => some 0xE1
  | "NACK_INVALID_SEGMENT" => some 0xE2
  | "NACK_NO_EFFECT" => some 0xE3
  | "NACK_UNKNOWN_EFFECT" => some 0xE4
  | "NACK_UNKNOWN_PARAMETER" => some 0xE5
  | "NACK_JSON_ERROR" => some 0xE6
  | "NACK_FS_ERROR" => some 0xE7
  | "NACK_BUFFER_OVERFLOW" => some 0xE8
  | _ => none

/-- Embedding of `DeviceTester.send_command` of `BinaryTest.py` (lines
89-109): the bytes written are the opcode looked up in `CMD` followed by
the payload; an unknown name sends nothing. -/
def send_command_bytes (name : String) (payload : List Nat) : Option (List Nat) :=
  (CMD name).map fun opcode => opcode :: payload

end BinaryTest

namespace MergedScript

/-- Binary command constants of `New_Test_script_merged.py` (lines 26-39). -/
def CMD_SET_COLOR : Nat := 0x01

def CMD_SET_EFFECT : Nat := 0x02

def CMD_SET_BRIGHTNESS : Nat := 0x03

def CMD_SET_SEG_BRIGHT : Nat := 0x04

def CMD_SELECT_SEGMENT : Nat := 0x05

def CMD_CLEAR_SEGMENTS : Nat := 0x06

def CMD_SET_SEG_RANGE : Nat := 0x07

def CMD_GET_STATUS : Nat := 0x08

def CMD_BATCH_CONFIG : Nat := 0x09

def CMD_GET_EFFECT_INFO : Nat := 0x0B

def CMD_ACK : Nat := 0xA0

def CMD_SET_LED_COUNT : Nat := 0x0C

def CMD_GET_LED_COUNT : Nat := 0x0D

end MergedScript

namespace SegmentConfigTest

/-- Constant of `SegmentConfig_test.py` line 10. -/
def CMD_GET_ALL_EFFECTS : Nat := 0x10

/-- Constant of `SegmentConfig_test.py` line 11. -/
def CMD_ACK_GENERIC : Nat := 0xA0

end SegmentConfigTest

namespace GetAllEffectsTest

/-- Constant of `GetAllEffects_Test.py` line 7 (first byte of `b'\x10'`). -/
def CMD_GET_ALL_EFFECTS : Nat := 0x10

/-- Constant of `GetAllEffects_Test.py` line 8 (first byte of `b'\xA0'`). -/
def CMD_ACK : Nat := 0xA0

end GetAllEffectsTest

/-- C1: the opcode assignments of the scripts match the spec's table:
commands 0x01-0x10 under their table names, acknowledgement codes at
0xA0-0xA4, negative-acknowledgement codes at 0xE0-0xE8, and the frame a
script sends for a command name starts with exactly the table's opcode. -/
theorem C1_opcode_table :
    (BinaryTest.CMD "SET_COLOR" = some 0x01
      ∧ BinaryTest.CMD "SET_EFFECT" = some 0x02
      ∧ BinaryTest.CMD "SET_BRIGHTNESS" = some 0x03
      ∧ BinaryTest.CMD "SET_SEG_BRIGHT" = some 0x04
      ∧ BinaryTest.CMD "SELECT_SEGMENT" = some 0x05
      ∧ BinaryTest.CMD "CLEAR_SEGMENTS" = some 0x06
      ∧ BinaryTest.CMD "SET_SEG_RANGE" = some 0x07
      ∧ BinaryTest.CMD "GET_STATUS" = some 0x08
      ∧ BinaryTest.CMD "BATCH_CONFIG" = some 0x09
      ∧ BinaryTest.CMD "SET_EFFECT_PARAMETER" = some 0x0A
      ∧ BinaryTest.CMD "GET_EFFECT_INFO" = some 0x0B
      ∧ BinaryTest.CMD "SET_LED_COUNT" = some 0x0C
      ∧ BinaryTest.CMD "GET_LED_COUNT" = some 0x0D
      ∧ BinaryTest.CMD "GET_ALL_SEGMENT_CONFIGS" = some 0x0E
      ∧ BinaryTest.CMD "SET_ALL_SEGMENT_CONFIGS" = some 0x0F
      ∧ BinaryTest.CMD "GET_ALL_EFFECTS" = some 0x10)
    ∧ (BinaryTest.CMD "ACK_GENERIC" = some 0xA0
      ∧ BinaryTest.CMD "ACK_EFFECT_SET" = some 0xA1
      ∧ BinaryTest.CMD "ACK_PARAM_SET" = some 0xA2
      ∧ BinaryTest.CMD "ACK_CONFIG_SAVED" = some 0xA3
      ∧ BinaryTest.CMD "ACK_RESTARTING" = some 0xA4)
    ∧ (BinaryTest.CMD "NACK_UNKNOWN_CMD" = some 0xE0
      ∧ BinaryTest.CMD "NACK_INVALID_PAYLOAD" = some 0xE1
      ∧ BinaryTest.CMD "NACK_INVALID_SEGMENT" = some 0xE2
      ∧ BinaryTest.CMD "NACK_NO_EFFECT" = some 0xE3
      ∧ BinaryTest.CMD "NACK_UNKNOWN_EFFECT" = some 0xE4
      ∧ BinaryTest.CMD "NACK_UNKNOWN_PARAMETER" = some 0xE5
      ∧ BinaryTest.CMD "NACK_JSON_ERROR" = some 0xE6
      ∧ BinaryTest.CMD "NACK_FS_ERROR" = some 0xE7
      ∧ BinaryTest.CMD "NACK_BUFFER_OVERFLOW" = some 0xE8)
    ∧ (MergedScript.CMD_SET_COLOR = 0x01
      ∧ MergedScript.CMD_SET_EFFECT = 0x02
      ∧ MergedScript.CMD_SET_BRIGHTNESS = 0x03
      ∧ MergedScript.CMD_SET_SEG_BRIGHT = 0x04
      ∧ MergedScript.CMD_SELECT_SEGMENT = 0x05
      ∧ MergedScript.CMD_CLEAR_SEGMENTS = 0x06
      ∧ MergedScript.CMD_SET_SEG_RANGE = 0x07
      ∧ MergedScript.CMD_GET_STATUS = 0x08
      ∧ MergedScript.CMD_BATCH_CONFIG = 0x09
      ∧ MergedScript.CMD_GET_EFFECT_INFO = 0x0B
      ∧ MergedScript.CMD_SET_LED_COUNT = 0x0C
      ∧ MergedScript.CMD_GET_LED_COUNT = 0x0D
      ∧ MergedScript.CMD_ACK = 0xA0
      ∧ SegmentConfigTest.CMD_GET_ALL_EFFECTS = 0x10
      ∧ SegmentConfigTest.CMD_ACK_GENERIC = 0xA0
      ∧ GetAllEffectsTest.CMD_GET_ALL_EFFECTS = 0x10
      ∧ GetAllEffectsTest.CMD_ACK = 0xA0)
    ∧ (∀ name opcode payload, BinaryTest.CMD name = some opcode →
        BinaryTest.send_command_bytes name payload = some (opcode :: payload)) := by
  refine ⟨?_, ?_, ?_, ?_, ?_⟩
  · exact ⟨rfl, rfl, rfl, rfl, rfl, rfl, rfl, rfl, rfl, rfl, rfl, rfl, rfl, rfl, rfl, rfl⟩
  · exact ⟨rfl, rfl, rfl, rfl, rfl⟩
  · exact ⟨rfl, rfl, rfl, rfl, rfl, rfl, rfl, rfl, rfl⟩
  · exact ⟨rfl, rfl, rfl, rfl, rfl, rfl, rfl, rfl, rfl, rfl, rfl, rfl, rfl, rfl, rfl, rfl, rfl⟩
  · intro name opcode payload h
    simp [BinaryTest.send_command_bytes, h]

/-- Witness for C1: the frame-construction clause applied to the concrete
command `SET_EFFECT` with payload `[0, 7]`. -/
theorem C1_opcode_table_witness :
    BinaryTest.send_command_bytes "SET_EFFECT" [0, 7] = some (0x02 :: [0, 7]) :=
  C1_opcode_table.2.2.2.2 "SET_EFFECT" 0x02 [0, 7] rfl

namespace BinaryTest

/-- Embedding of `DeviceTester.check_ack` of `BinaryTest.py` (lines
131-143).  `response` is the result of `wait_for_response` (lines 111-129):
`none` when no data arrived before the timeout, otherwise the received
bytes.  The check passes exactly on the Python condition
`response and len(response) == 1 and response[0] == expected_ack_code`,
where `expected_ack_code = CMD.get(expected_ack_name)`; every other
branch returns `False`. -/
def check_ack (expected_ack_name : String) (response : Option (List Nat)) : Bool :=
  match response with
  | some r =>
      if !r.isEmpty && r.length == 1 && some (r.headD 0) == CMD expected_ack_name then
        true
      else if !r.isEmpty then
        false
      else
        false
  | none => false

/-- Wire encoding of a COLOR test value in
`DeviceTester.test_all_effects_and_params` of `BinaryTest.py` (lines
283-290): the three payload bytes appended for a packed 24-bit color
`test_val` are `(test_val >> 16) & 0xFF`, `(test_val >> 8) & 0xFF`,
`test_val & 0xFF`. -/
def color_wire_bytes (test_val : Nat) : List Nat :=
  [(test_val >>> 16) &&& 0xFF, (test_val >>> 8) &&& 0xFF, test_val &&& 0xFF]

end BinaryTest

/-- Repacking of three wire bytes into the packed 24-bit integer the JSON
interface reports, written from the spec's formula `r*65536 + g*256 + b`. -/
def packRGB (r g b : Nat) : Nat :=
  r * 65536 + g * 256 + b

/-- C10: the binary acknowledgement check succeeds iff the response is
exactly one byte equal to the expected ACK code; a response with extra
bytes fails even when its first byte is the expected code, and a timeout
(no response) fails. -/
theorem C10_check_ack_exact :
    ∀ name code, BinaryTest.CMD name = some code →
      (∀ response, BinaryTest.check_ack name response = true ↔ response = some [code])
      ∧ (∀ rest, rest ≠ [] → BinaryTest.check_ack name (some (code :: rest)) = false)
      ∧ BinaryTest.check_ack name none = false := by
  intro name code h
  refine ⟨?_, ?_, rfl⟩
  · intro response
    match response with
    | none => simp [BinaryTest.check_ack]
    | some r =>
      match r with
      | [] => simp [BinaryTest.check_ack]
      | [b] =>
        simp only [BinaryTest.check_ack, h]
        constructor
        · intro hb
          by_cases hbc : b = code
          · subst hbc; rfl
          · simp [hbc] at hb
        · intro hb
          have : b = code := by simpa using hb
          subst this
          simp
      | a :: b :: rest => simp [BinaryTest.check_ack]
  · intro rest hrest
    match rest with
    | [] => exact absurd rfl hrest
    | x :: xs => simp [BinaryTest.check_ack]

/-- Witness for C10: with the concrete expected acknowledgement
`ACK_GENERIC` (code 0xA0), the exact single byte passes, the same byte
followed by an extra byte fails, and a timeout fails. -/
theorem C10_check_ack_exact_witness :
    BinaryTest.check_ack "ACK_GENERIC" (some [0xA0]) = true
    ∧ BinaryTest.check_ack "ACK_GENERIC" (some [0xA0, 0x00]) = false
    ∧ BinaryTest.check_ack "ACK_GENERIC" none = false := by
  have h := C10_check_ack_exact "ACK_GENERIC" 0xA0 rfl
  exact ⟨(h.1 (some [0xA0])).mpr rfl, h.2.1 [0x00] (by simp), h.2.2⟩

/-- C6: for every 24-bit color value, the three wire bytes computed by the
script are the big-endian R,G,B bytes, each below 256, and repacking them
as `r*65536 + g*256 + b` recovers the packed value the JSON interface
reports. -/
theorem C6_color_wire_roundtrip :
    ∀ c : Nat, c < 2 ^ 24 →
      ∃ r g b, BinaryTest.color_wire_bytes c = [r, g, b]
        ∧ r < 256 ∧ g < 256 ∧ b < 256
        ∧ packRGB r g b = c := by
  intro c hc
  have h255 : (0xFF : Nat) = 2 ^ 8 - 1 := by norm_num
  have e16 : (c >>> 16) &&& 0xFF = c / 2 ^ 16 % 2 ^ 8 := by
    rw [Nat.shiftRight_eq_div_pow, h255, Nat.and_pow_two_sub_one_eq_mod]
  have e8 : (c >>> 8) &&& 0xFF = c / 2 ^ 8 % 2 ^ 8 := by
    rw [Nat.shiftRight_eq_div_pow, h255, Nat.and_pow_two_sub_one_eq_mod]
  have e0 : c &&& 0xFF = c % 2 ^ 8 := by
    rw [h255, Nat.and_pow_two_sub_one_eq_mod]
  refine ⟨c / 2 ^ 16 % 2 ^ 8, c / 2 ^ 8 % 2 ^ 8, c % 2 ^ 8, ?_, ?_, ?_, ?_, ?_⟩
  · simp [BinaryTest.color_wire_bytes, e16, e8, e0]
  · exact Nat.mod_lt _ (by norm_num)
  · exact Nat.mod_lt _ (by norm_num)
  · exact Nat.mod_lt _ (by norm_num)
  · unfold packRGB
    norm_num
    omega

/-- Witness for C6: the round trip at the concrete color 0x123456 used by
the merged test script. -/
theorem C6_color_wire_roundtrip_witness :
    0x123456 < 2 ^ 24
    ∧ ∃ r g b, BinaryTest.color_wire_bytes 0x123456 = [r, g, b]
        ∧ r < 256 ∧ g < 256 ∧ b < 256
        ∧ packRGB r g b = 0x123456 :=
  ⟨by norm_num, C6_color_wire_roundtrip 0x123456 (by norm_num)⟩

namespace SegmentConfigTest

/-- Encoding of the 2-byte big-endian segment count sent by
`set_all_segment_configs` of `SegmentConfig_test.py` (lines 299-305) and
`upload_configuration` of `LoadCapeConfig.py` (lines 140-144): the bytes
of `struct.pack(">H", n)`, i.e. the big-endian unsigned 16-bit encoding
high byte first (defined for `n < 65536`). -/
def pack_be16 (n : Nat) : List Nat :=
  [n / 256, n % 256]

end SegmentConfigTest

namespace GetAllEffectsTest

/-- Decoding of the 2-byte big-endian count in
`run_get_all_effects_test` of `GetAllEffects_Test.py` (line 56):
`(binary_response[1] << 8) | binary_response[2]`. -/
def decode_be16 (hi lo : Nat) : Nat :=
  (hi <<< 8) ||| lo

end GetAllEffectsTest

/-- Shift-or decode of two big-endian bytes equals `hi*256 + lo` when the
low byte is in range. -/
theorem decode_be16_eq (hi lo : Nat) (hlo : lo < 256) :
    GetAllEffectsTest.decode_be16 hi lo = hi * 256 + lo := by
  unfold GetAllEffectsTest.decode_be16
  rw [Nat.shiftLeft_eq]
  have h : 2 ^ 8 * hi + lo = 2 ^ 8 * hi ||| lo :=
    Nat.mul_add_lt_is_or (by norm_num [hlo]) hi
  calc hi * 2 ^ 8 ||| lo = 2 ^ 8 * hi ||| lo := by rw [Nat.mul_comm]
    _ = 2 ^ 8 * hi + lo := h.symm
    _ = hi * 256 + lo := by ring

/-- C7: the 16-bit big-endian count encoding is a bijection between
counts 0..65535 and byte pairs: decoding after encoding returns the
count (and the decode used by the scripts equals `high*256 + low`), and
re-encoding the decoded value of any 2-byte sequence reproduces the same
two bytes. -/
theorem C7_be16_bijection :
    (∀ n, n ≤ 65535 →
      SegmentConfigTest.pack_be16 n = [n / 256, n % 256]
      ∧ GetAllEffectsTest.decode_be16 (n / 256) (n % 256) = n)
    ∧ (∀ hi lo, hi < 256 → lo < 256 →
        SegmentConfigTest.pack_be16 (GetAllEffectsTest.decode_be16 hi lo) = [hi, lo])
    ∧ (∀ hi lo, lo < 256 → GetAllEffectsTest.decode_be16 hi lo = hi * 256 + lo) := by
  refine ⟨?_, ?_, fun hi lo hlo => decode_be16_eq hi lo hlo⟩
  · intro n hn
    refine ⟨rfl, ?_⟩
    rw [decode_be16_eq _ _ (Nat.mod_lt _ (by norm_num))]
    omega
  · intro hi lo hhi hlo
    rw [decode_be16_eq _ _ hlo]
    unfold SegmentConfigTest.pack_be16
    have hdiv : (hi * 256 + lo) / 256 = hi := by omega
    have hmod : (hi * 256 + lo) % 256 = lo := by omega
    rw [hdiv, hmod]

/-- Witness for C7: the bijection at the concrete count 300 = 0x012C and
at the concrete byte pair (1, 44). -/
theorem C7_be16_bijection_witness :
    (SegmentConfigTest.pack_be16 300 = [1, 44]
      ∧ GetAllEffectsTest.decode_be16 1 44 = 300)
    ∧ SegmentConfigTest.pack_be16 (GetAllEffectsTest.decode_be16 1 44) = [1, 44] := by
  have h1 := C7_be16_bijection.1 300 (by norm_num)
  have h2 := C7_be16_bijection.2.1 1 44 (by norm_num) (by norm_num)
  have e : (300 : Nat) / 256 = 1 ∧ (300 : Nat) % 256 = 44 := by norm_num
  exact ⟨⟨by simpa [e.1, e.2] using h1.1, by simpa [e.1, e.2] using h1.2⟩, h2⟩

namespace BinaryTest

/-- SET_EFFECT frame construction in
`DeviceTester.test_all_effects_and_params` of `BinaryTest.py` (line 256):
`send_command("SET_EFFECT", payload=[0, effect_id])`. -/
def set_effect_frame (effect_id : Nat) : Option (List Nat) :=
  send_command_bytes "SET_EFFECT" [0, effect_id]

/-- The acknowledgement name expected by `BinaryTest.py` line 257 after a
SET_EFFECT frame: `check_ack("ACK_EFFECT_SET")`. -/
def set_effect_expected_ack : String :=
  "ACK_EFFECT_SET"

end BinaryTest

namespace MergedScript

/-- Effect id used in `test_all_hex_commands` of
`New_Test_script_merged.py` (line 298): `effect_id_fire = 5`. -/
def effect_id_fire : Nat := 5

/-- SET_EFFECT frame sent by `test_all_hex_commands` of
`New_Test_script_merged.py` (line 299):
`bytes([CMD_SET_EFFECT, effect_id_fire])` - a one-byte payload holding
only the effect id, with no segment byte. -/
def set_effect_cmd_bytes : List Nat :=
  [CMD_SET_EFFECT, effect_id_fire]

end MergedScript

namespace TestCommands

/-- Constant of `test_Commands.py` line 17. -/
def CMD_SET_EFFECT : Nat := 0x02

/-- SET_EFFECT packet in the `BINARY_COMMANDS` list of `test_Commands.py`
(line 55): `bytearray([CMD_SET_EFFECT, 3])` - again a one-byte payload. -/
def binary_set_effect_packet : List Nat :=
  [CMD_SET_EFFECT, 3]

end TestCommands

/-- C5 counterexample: the SET_EFFECT frame sent by
`New_Test_script_merged.py` is `[0x02, 5]`, which cannot be written as
opcode plus a two-byte `[segment, effectId]` payload, so not every
SET_EFFECT frame the program sends carries a two-byte payload. -/
theorem C5_counterexample :
    MergedScript.set_effect_cmd_bytes = [0x02, 5]
    ∧ ¬ ∃ seg effectId, MergedScript.set_effect_cmd_bytes = [0x02, seg, effectId] := by
  refine ⟨rfl, ?_⟩
  rintro ⟨seg, effectId, h⟩
  have hlen := congrArg List.length h
  simp [MergedScript.set_effect_cmd_bytes] at hlen

/-- C5 amended: the SET_EFFECT frames of `BinaryTest.py` carry the
two-byte payload `[segment, effectId]` (segment 0) with expected success
response ACK_EFFECT_SET (0xA1); `New_Test_script_merged.py` and
`test_Commands.py` instead send a single-byte payload holding only the
effect id (5 and 3 respectively). -/
theorem C5_amended_set_effect_frames :
    (∀ effect_id, BinaryTest.set_effect_frame effect_id = some [0x02, 0, effect_id])
    ∧ BinaryTest.CMD BinaryTest.set_effect_expected_ack = some 0xA1
    ∧ MergedScript.set_effect_cmd_bytes = [0x02, MergedScript.effect_id_fire]
    ∧ TestCommands.binary_set_effect_packet = [0x02, 3] := by
  refine ⟨fun effect_id => ?_, rfl, rfl, rfl⟩
  simp [BinaryTest.set_effect_frame, BinaryTest.send_command_bytes, BinaryTest.CMD]

namespace Firmware

/-- Modelled from the spec: the Segment data model of section 3 (fields
id, name, startLed, endLed, brightness, effect); the firmware itself is
not under src/. -/
structure Segment where
  id : Nat
  name : String
  startLed : Nat
  endLed : Nat
  brightness : Nat
  effect : String
deriving DecidableEq

/-- Modelled from the spec: the Device Configuration aggregate of
section 3 (`ledCount` plus the ordered segment sequence); the firmware
itself is not under src/. -/
structure DeviceState where
  ledCount : Nat
  segments : List Segment
deriving DecidableEq

/-- Modelled from the spec: the default brightness of the reset "all"
segment; the spec does not pin its numeric value, and no claim depends
on it. -/
def default_brightness : Nat := 255

/-- Modelled from the spec: Segment Store `clear()` of section 4.2 -
"removes all segments except id 0; id 0 is reset to the 'all' defaults
(full range, SolidColor, default brightness)"; the firmware itself is
not under src/. -/
def clearSegments (st : DeviceState) : DeviceState :=
  { st with
    segments := [{ id := 0, name := "all", startLed := 0,
                   endLed := st.ledCount - 1,
                   brightness := default_brightness,
                   effect := "SolidColor" }] }

/-- Modelled from the spec: `getStatus()` of section 4.5 reports the
Segment Store's segment list; the firmware itself is not under src/. -/
def getStatusSegments (st : DeviceState) : List Segment :=
  st.segments

end Firmware

namespace MergedScript

/-- The check the merged test script applies after `clearsegments` +
`getstatus` (`New_Test_script_merged.py` lines 224-229 and 348-354):
`assert len(response["segments"]) == 1`. -/
def clear_check (segments : List Firmware.Segment) : Bool :=
  segments.length == 1

end MergedScript

/-- C4: in every device state, issuing clearsegments and then reading the
status yields exactly one segment - the id-0 "all" segment spanning the
full strip - and the test's assertion passes on a status exactly when its
segment count is 1 (any other count fails). -/
theorem C4_clearsegments_single_segment :
    (∀ st : Firmware.DeviceState,
      (Firmware.getStatusSegments (Firmware.clearSegments st)).length = 1
      ∧ (∀ s, s ∈ Firmware.getStatusSegments (Firmware.clearSegments st) →
          s.id = 0 ∧ s.startLed = 0 ∧ s.endLed = st.ledCount - 1)
      ∧ MergedScript.clear_check
          (Firmware.getStatusSegments (Firmware.clearSegments st)) = true)
    ∧ (∀ segments : List Firmware.Segment,
        MergedScript.clear_check segments = true ↔ segments.length = 1) := by
  constructor
  · intro st
    refine ⟨rfl, ?_, rfl⟩
    intro s hs
    simp [Firmware.getStatusSegments, Firmware.clearSegments] at hs
    subst hs
    exact ⟨rfl, rfl, rfl⟩
  · intro segments
    simp [MergedScript.clear_check]

namespace BinaryTest

/-- Transport actions of `DeviceTester.discover_effects` of
`BinaryTest.py`: sending an ACK_GENERIC frame and receiving one JSON
effect descriptor. -/
inductive Act where
  | sendAck : Act
  | recvEffect : String → Act
deriving DecidableEq

/-- Outcome of one round of `discover_effects` (lines 167-194): the
per-round `wait_for_response` either times out, returns bytes that do not
parse as an effect JSON, or yields an effect descriptor (name and
parameter count). -/
inductive RoundResult where
  | timeout : RoundResult
  | badJson : RoundResult
  | ok : String → Nat → RoundResult
deriving DecidableEq

/-- Count decoding of `discover_effects` (`BinaryTest.py` line 164):
`(count_response[1] << 8) | count_response[2]`. -/
def effect_count (count_response : List Nat) : Nat :=
  (count_response.getD 1 0 <<< 8) ||| count_response.getD 2 0

/-- The `for i in range(effect_count)` loop of `discover_effects`
(`BinaryTest.py` lines 167-194): each round sends ACK_GENERIC, then
waits for and parses one effect JSON; any timeout or parse failure
returns failure immediately.  Returns the transport trace and the
success flag. -/
def discoverLoop (round : Nat → RoundResult) : Nat → Nat → List Act × Bool
  | _, 0 => ([], true)
  | i, n + 1 =>
    match round i with
    | RoundResult.timeout => ([Act.sendAck], false)
    | RoundResult.badJson => ([Act.sendAck], false)
    | RoundResult.ok name _ =>
      let r := discoverLoop round (i + 1) n
      (Act.sendAck :: Act.recvEffect name :: r.1, r.2)

/-- The opcode `CMD["GET_ALL_EFFECTS"]` compared against at
`BinaryTest.py` line 160. -/
def CMD_GET_ALL_EFFECTS_code : Nat := 0x10

/-- Embedding of `DeviceTester.discover_effects` of `BinaryTest.py`
(lines 145-199): after initiating `getalleffects`, the first response is
rejected unless it is exactly 3 bytes starting with the GET_ALL_EFFECTS
opcode; then the ACK-gated per-effect loop runs, and on success a final
ACK is sent. -/
def discover_effects (count_response : Option (List Nat))
    (round : Nat → RoundResult) : List Act × Bool :=
  match count_response with
  | none => ([], false)
  | some resp =>
    if resp.length != 3 || resp.headD 0 != CMD_GET_ALL_EFFECTS_code then
      ([], false)
    else
      let r := discoverLoop round 0 (effect_count resp)
      if r.2 then (r.1 ++ [Act.sendAck], true) else r

end BinaryTest

/-- Unfolding of `discover_effects` on a present header response. -/
theorem BinaryTest.discover_effects_some (resp : List Nat)
    (round : Nat → BinaryTest.RoundResult) :
    BinaryTest.discover_effects (some resp) round =
      if resp.length != 3 || resp.headD 0 != BinaryTest.CMD_GET_ALL_EFFECTS_code then
        ([], false)
      else
        let r := BinaryTest.discoverLoop round 0 (BinaryTest.effect_count resp)
        if r.2 then (r.1 ++ [BinaryTest.Act.sendAck], true) else r :=
  rfl

/-- A failing discovery loop always has sent at least the ACK that opened
the failing round. -/
theorem discoverLoop_ne_nil_of_false (round : Nat → BinaryTest.RoundResult) :
    ∀ n i, (BinaryTest.discoverLoop round i n).2 = false →
      (BinaryTest.discoverLoop round i n).1 ≠ [] := by
  intro n
  induction n with
  | zero => intro i h; simp [BinaryTest.discoverLoop] at h
  | succ n ih =>
    intro i h
    unfold BinaryTest.discoverLoop at h ⊢
    match hr : round i with
    | BinaryTest.RoundResult.timeout => simp [hr]
    | BinaryTest.RoundResult.badJson => simp [hr]
    | BinaryTest.RoundResult.ok name k => simp [hr]

/-- When every round up to the count succeeds, the discovery loop
performs exactly one ACK-then-JSON exchange per round, in order. -/
theorem discoverLoop_all_ok (round : Nat → BinaryTest.RoundResult)
    (f : Nat → String) (g : Nat → Nat) :
    ∀ n i, (∀ j, i ≤ j → j < i + n → round j = BinaryTest.RoundResult.ok (f j) (g j)) →
      BinaryTest.discoverLoop round i n =
        ((List.range' i n).flatMap
          (fun j => [BinaryTest.Act.sendAck, BinaryTest.Act.recvEffect (f j)]), true) := by
  intro n
  induction n with
  | zero => intro i _; simp [BinaryTest.discoverLoop]
  | succ n ih =>
    intro i hall
    have hi : round i = BinaryTest.RoundResult.ok (f i) (g i) :=
      hall i (Nat.le_refl i) (by omega)
    have hrest := ih (i + 1) (fun j hj1 hj2 => hall j (by omega) (by omega))
    unfold BinaryTest.discoverLoop
    rw [hi, hrest, List.range'_succ]
    simp

/-- C2: after initiating getalleffects, the first reply is accepted
(the run proceeds beyond the header) iff it is exactly 3 bytes whose
first byte is the GET_ALL_EFFECTS opcode 0x10; the count is decoded from
the remaining bytes as `countHigh*256 + countLow`; and when every round
succeeds the receiver performs exactly that many acknowledgement-gated
rounds - each an ACK followed by one received JSON effect descriptor -
closing with the final ACK. -/
theorem C2_getalleffects_header_and_rounds :
    (∀ count_response round,
      (BinaryTest.discover_effects count_response round).1 ≠ [] ↔
        ∃ hi lo, count_response = some [0x10, hi, lo])
    ∧ (∀ hi lo, lo < 256 → BinaryTest.effect_count [0x10, hi, lo] = hi * 256 + lo)
    ∧ (∀ hi lo round (f : Nat → String) (g : Nat → Nat),
        (∀ i, i < BinaryTest.effect_count [0x10, hi, lo] →
          round i = BinaryTest.RoundResult.ok (f i) (g i)) →
        BinaryTest.discover_effects (some [0x10, hi, lo]) round =
          ((List.range (BinaryTest.effect_count [0x10, hi, lo])).flatMap
            (fun j => [BinaryTest.Act.sendAck, BinaryTest.Act.recvEffect (f j)])
            ++ [BinaryTest.Act.sendAck], true)) := by
  refine ⟨?_, ?_, ?_⟩
  · intro count_response round
    match count_response with
    | none =>
      simp [BinaryTest.discover_effects]
    | some resp =>
      constructor
      · intro hne
        rw [BinaryTest.discover_effects_some] at hne
        by_cases hcond : (resp.length != 3 || resp.headD 0 != BinaryTest.CMD_GET_ALL_EFFECTS_code) = true
        · rw [if_pos hcond] at hne
          exact absurd rfl hne
        · have hlen : resp.length = 3 := by
            simp only [Bool.or_eq_true, bne_iff_ne] at hcond
            push_neg at hcond
            exact hcond.1
          have hhead : resp.headD 0 = 0x10 := by
            simp only [Bool.or_eq_true, bne_iff_ne] at hcond
            push_neg at hcond
            exact hcond.2
          match resp, hlen with
          | [a, b, c], _ =>
            have : a = 0x10 := by simpa using hhead
            exact ⟨b, c, by rw [this]⟩
      · rintro ⟨hi, lo, hresp⟩
        have hresp2 : resp = [0x10, hi, lo] := by injection hresp
        subst hresp2
        rw [BinaryTest.discover_effects_some]
        have hcond : (([0x10, hi, lo] : List Nat).length != 3
            || ([0x10, hi, lo] : List Nat).headD 0 != BinaryTest.CMD_GET_ALL_EFFECTS_code) = false := by
          simp [BinaryTest.CMD_GET_ALL_EFFECTS_code]
        rw [hcond]
        simp only [Bool.false_eq_true, if_false]
        by_cases hok : (BinaryTest.discoverLoop round 0
            (BinaryTest.effect_count [0x10, hi, lo])).2 = true
        · rw [if_pos hok]
          simp
        · rw [if_neg hok]
          exact discoverLoop_ne_nil_of_false round _ 0 (Bool.eq_false_iff.mpr hok ▸ rfl)
  · intro hi lo hlo
    unfold BinaryTest.effect_count
    simpa using decode_be16_eq hi lo hlo
  · intro hi lo round f g hall
    rw [BinaryTest.discover_effects_some]
    have hcond : (([0x10, hi, lo] : List Nat).length != 3
        || ([0x10, hi, lo] : List Nat).headD 0 != BinaryTest.CMD_GET_ALL_EFFECTS_code) = false := by
      simp [BinaryTest.CMD_GET_ALL_EFFECTS_code]
    rw [hcond]
    simp only [Bool.false_eq_true, if_false]
    have hloop := discoverLoop_all_ok round f g (BinaryTest.effect_count [0x10, hi, lo]) 0
      (fun j hj1 hj2 => hall j (by omega))
    rw [hloop]
    simp [List.range_eq_range']

/-- Witness for C2: a concrete run with header `[0x10, 0, 2]` and two
successful rounds. -/
theorem C2_getalleffects_header_and_rounds_witness :
    BinaryTest.discover_effects (some [0x10, 0, 2])
        (fun _ => BinaryTest.RoundResult.ok "Fire" 0) =
      ((List.range (BinaryTest.effect_count [0x10, 0, 2])).flatMap
        (fun _ => [BinaryTest.Act.sendAck, BinaryTest.Act.recvEffect "Fire"])
        ++ [BinaryTest.Act.sendAck], true) :=
  C2_getalleffects_header_and_rounds.2.2 0 2
    (fun _ => BinaryTest.RoundResult.ok "Fire" 0) (fun _ => "Fire") (fun _ => 0)
    (fun _ _ => rfl)

namespace SegmentConfigTest

/-- Transport actions of `set_all_segment_configs` of
`SegmentConfig_test.py` (lines 288-330) (and the identically structured
`upload_configuration` of `LoadCapeConfig.py`, lines 129-162): the
initiating text command, the 2-byte count, each segment's JSON, and the
acknowledgements received in between. -/
inductive UAct where
  | sendCmd : UAct
  | ackInit : UAct
  | sendCount : Nat → UAct
  | ackCount : UAct
  | sendItem : Nat → String → UAct
  | ackItem : Nat → UAct
deriving DecidableEq

/-- The per-segment loop of `set_all_segment_configs`
(`SegmentConfig_test.py` lines 313-327): write segment i's JSON, then
wait for its acknowledgement; a missing or negative acknowledgement
aborts immediately with failure.  `itemAck i` is the outcome of
`wait_for_ack` after segment i. -/
def uploadLoop (itemAck : Nat → Bool) : Nat → List String → List UAct × Bool
  | _, [] => ([], true)
  | i, s :: rest =>
    if itemAck i then
      let r := uploadLoop itemAck (i + 1) rest
      (UAct.sendItem i s :: UAct.ackItem i :: r.1, r.2)
    else
      ([UAct.sendItem i s], false)

/-- Embedding of `set_all_segment_configs` of `SegmentConfig_test.py`
(lines 288-330): send the initiating command and await its
acknowledgement, send the 2-byte count and await its acknowledgement,
then run the per-segment lock-step loop. -/
def set_all_segment_configs (initAck countAck : Bool) (itemAck : Nat → Bool)
    (segments_to_send : List String) : List UAct × Bool :=
  if !initAck then
    ([UAct.sendCmd], false)
  else if !countAck then
    ([UAct.sendCmd, UAct.ackInit, UAct.sendCount segments_to_send.length], false)
  else
    let r := uploadLoop itemAck 0 segments_to_send
    (UAct.sendCmd :: UAct.ackInit :: UAct.sendCount segments_to_send.length ::
      UAct.ackCount :: r.1, r.2)

/-- The fixed prefix of a bulk upload that reaches the per-segment loop:
initiating command, its ack, the count, its ack. -/
def uploadHeader (segments_to_send : List String) : List UAct :=
  [UAct.sendCmd, UAct.ackInit, UAct.sendCount segments_to_send.length, UAct.ackCount]

/-- The fully lock-step trace: for each segment, its send immediately
followed by its received acknowledgement. -/
def lockstepTrace : Nat → List String → List UAct
  | _, [] => []
  | i, s :: rest => UAct.sendItem i s :: UAct.ackItem i :: lockstepTrace (i + 1) rest

end SegmentConfigTest

/-- When every per-item acknowledgement arrives, the upload loop sends
every item in order, each followed by its acknowledgement. -/
theorem uploadLoop_all_ok (itemAck : Nat → Bool) :
    ∀ (segs : List String) (i : Nat),
      (∀ j, i ≤ j → j < i + segs.length → itemAck j = true) →
      SegmentConfigTest.uploadLoop itemAck i segs =
        (SegmentConfigTest.lockstepTrace i segs, true) := by
  intro segs
  induction segs with
  | nil => intro i _; rfl
  | cons s rest ih =>
    intro i hall
    have hi : itemAck i = true := hall i (Nat.le_refl i) (by simp)
    have hrest := ih (i + 1) (fun j hj1 hj2 => hall j (by omega) (by simp at hj2 ⊢; omega))
    unfold SegmentConfigTest.uploadLoop
    rw [hi, hrest]
    rfl

/-- When the first missing acknowledgement is for item k, the upload loop
sends exactly items 0..k (the lock-step prefix followed by item k's
send), then aborts with failure. -/
theorem uploadLoop_first_fail (itemAck : Nat → Bool) :
    ∀ (segs : List String) (i k : Nat),
      k < segs.length → itemAck (i + k) = false →
      (∀ j, j < k → itemAck (i + j) = true) →
      SegmentConfigTest.uploadLoop itemAck i segs =
        (SegmentConfigTest.lockstepTrace i (segs.take k)
          ++ [SegmentConfigTest.UAct.sendItem (i + k) (segs.getD k "")], false) := by
  intro segs
  induction segs with
  | nil => intro i k hk; simp at hk
  | cons s rest ih =>
    intro i k hk hfail hok
    match k with
    | 0 =>
      have hi : itemAck i = false := by simpa using hfail
      unfold SegmentConfigTest.uploadLoop
      rw [hi]
      simp [SegmentConfigTest.lockstepTrace]
    | k' + 1 =>
      have hi : itemAck i = true := by simpa using hok 0 (by omega)
      have hfail2 : itemAck (i + 1 + k') = false := by
        have : i + 1 + k' = i + (k' + 1) := by omega
        rw [this]; exact hfail
      have hok2 : ∀ j, j < k' → itemAck (i + 1 + j) = true := by
        intro j hj
        have : i + 1 + j = i + (j + 1) := by omega
        rw [this]; exact hok (j + 1) (by omega)
      have hrest := ih (i + 1) k' (by simpa using hk) hfail2 hok2
      unfold SegmentConfigTest.uploadLoop
      rw [hi, hrest]
      have hidx : i + (k' + 1) = i + 1 + k' := by omega
      simp [SegmentConfigTest.lockstepTrace, hidx]

/-- C3: in a bulk segment upload whose initial and count acknowledgements
arrive, items go out in list order in lock-step - each item's send is
immediately followed by its received acknowledgement before the next send;
if every acknowledgement arrives the transfer succeeds, and on the first
missing or negative acknowledgement (item k) the transfer stops - items
after k are never sent - and failure is reported. -/
theorem C3_upload_lockstep_abort :
    ∀ (itemAck : Nat → Bool) (segments_to_send : List String),
      ((∀ i, i < segments_to_send.length → itemAck i = true) →
        SegmentConfigTest.set_all_segment_configs true true itemAck segments_to_send =
          (SegmentConfigTest.uploadHeader segments_to_send
            ++ SegmentConfigTest.lockstepTrace 0 segments_to_send, true))
      ∧ (∀ k, k < segments_to_send.length → itemAck k = false →
          (∀ j, j < k → itemAck j = true) →
          SegmentConfigTest.set_all_segment_configs true true itemAck segments_to_send =
            (SegmentConfigTest.uploadHeader segments_to_send
              ++ SegmentConfigTest.lockstepTrace 0 (segments_to_send.take k)
              ++ [SegmentConfigTest.UAct.sendItem k (segments_to_send.getD k "")],
              false)) := by
  intro itemAck segments_to_send
  constructor
  · intro hall
    have h := uploadLoop_all_ok itemAck segments_to_send 0
      (fun j _ hj2 => hall j (by omega))
    unfold SegmentConfigTest.set_all_segment_configs
    rw [h]
    simp [SegmentConfigTest.uploadHeader]
  · intro k hk hfail hok
    have h := uploadLoop_first_fail itemAck segments_to_send 0 k hk
      (by simpa using hfail) (fun j hj => by simpa using hok j hj)
    unfold SegmentConfigTest.set_all_segment_configs
    rw [h]
    simp [SegmentConfigTest.uploadHeader]

/-- Witness for C3: a concrete three-segment upload where the
acknowledgement for segment 1 never arrives: segments 0 and 1 are sent,
segment 2 is not, and failure is reported; and the same upload with all
acknowledgements present succeeds in full lock-step. -/
theorem C3_upload_lockstep_abort_witness :
    SegmentConfigTest.set_all_segment_configs true true (fun i => decide (i < 1))
        ["s0", "s1", "s2"] =
      (SegmentConfigTest.uploadHeader ["s0", "s1", "s2"]
        ++ SegmentConfigTest.lockstepTrace 0 (["s0", "s1", "s2"].take 1)
        ++ [SegmentConfigTest.UAct.sendItem 1 (["s0", "s1", "s2"].getD 1 "")], false)
    ∧ SegmentConfigTest.set_all_segment_configs true true (fun _ => true)
        ["s0", "s1", "s2"] =
      (SegmentConfigTest.uploadHeader ["s0", "s1", "s2"]
        ++ SegmentConfigTest.lockstepTrace 0 ["s0", "s1", "s2"], true) :=
  ⟨(C3_upload_lockstep_abort (fun i => decide (i < 1)) ["s0", "s1", "s2"]).2
      1 (by decide) (by decide) (fun j hj => decide_eq_true hj),
    (C3_upload_lockstep_abort (fun _ => true) ["s0", "s1", "s2"]).1
      (fun i _ => rfl)⟩

namespace MergedScript

/-- Actions of `restart_and_reconnect` of `New_Test_script_merged.py`
(lines 156-194): closing the stale port, sleeping, attempting to reopen,
and waiting for the device-ready signal. -/
inductive RAct where
  | closePort : RAct
  | sleepSec : Nat → RAct
  | tryOpen : Nat → RAct
  | waitReady : RAct
deriving DecidableEq

/-- Constant `RESTART_DELAY = 6` of `New_Test_script_merged.py` line 21. -/
def RESTART_DELAY : Nat := 6

/-- Constant `max_retries = 3` of `New_Test_script_merged.py` line 174. -/
def max_retries : Nat := 3

/-- The `for attempt in range(max_retries)` loop of
`restart_and_reconnect` (lines 175-194).  `openOk attempt` is whether
`ser.open()` succeeds on that attempt; on success the script sleeps 2s,
waits for the device-ready signal and returns; on failure it sleeps 2s
and retries, except on the last attempt where it raises (failure). -/
def reconnectAttempts (openOk : Nat → Bool) (attempt : Nat) :
    Nat → List RAct × Bool
  | 0 => ([], false)
  | remaining + 1 =>
    if openOk attempt then
      ([RAct.tryOpen attempt, RAct.sleepSec 2, RAct.waitReady], true)
    else if remaining = 0 then
      ([RAct.tryOpen attempt], false)
    else
      let r := reconnectAttempts openOk (attempt + 1) remaining
      (RAct.tryOpen attempt :: RAct.sleepSec 2 :: r.1, r.2)

/-- Embedding of `restart_and_reconnect` of `New_Test_script_merged.py`
(lines 156-194): close the port, wait `RESTART_DELAY` seconds, then run
the bounded reconnection loop. -/
def restart_and_reconnect (openOk : Nat → Bool) : List RAct × Bool :=
  let r := reconnectAttempts openOk 0 max_retries
  (RAct.closePort :: RAct.sleepSec RESTART_DELAY :: r.1, r.2)

/-- Number of reopen attempts recorded in a trace. -/
def countOpens (tr : List RAct) : Nat :=
  (tr.filter fun a => match a with
    | RAct.tryOpen _ => true
    | _ => false).length

end MergedScript

/-- C9: the reconnect procedure first closes the port and waits the fixed
6-second delay; it never attempts to reopen more than 3 times; when all 3
attempts fail it reports failure (raises) instead of retrying further;
and when attempt k (k < 3, the first to succeed) succeeds, it stops
opening, waits for the device-ready signal, and reports success. -/
theorem C9_reconnect_bounded_retry :
    ∀ openOk : Nat → Bool,
      ((MergedScript.restart_and_reconnect openOk).1.take 2 =
        [MergedScript.RAct.closePort, MergedScript.RAct.sleepSec 6])
      ∧ MergedScript.countOpens (MergedScript.restart_and_reconnect openOk).1 ≤ 3
      ∧ ((∀ a, a < 3 → openOk a = false) →
          MergedScript.restart_and_reconnect openOk =
            ([MergedScript.RAct.closePort, MergedScript.RAct.sleepSec 6,
              MergedScript.RAct.tryOpen 0, MergedScript.RAct.sleepSec 2,
              MergedScript.RAct.tryOpen 1, MergedScript.RAct.sleepSec 2,
              MergedScript.RAct.tryOpen 2], false))
      ∧ (∀ k, k < 3 → openOk k = true → (∀ j, j < k → openOk j = false) →
          MergedScript.restart_and_reconnect openOk =
            ([MergedScript.RAct.closePort, MergedScript.RAct.sleepSec 6]
              ++ (List.range k).flatMap
                  (fun j => [MergedScript.RAct.tryOpen j, MergedScript.RAct.sleepSec 2])
              ++ [MergedScript.RAct.tryOpen k, MergedScript.RAct.sleepSec 2,
                  MergedScript.RAct.waitReady], true)) := by
  intro openOk
  refine ⟨?_, ?_, ?_, ?_⟩
  · cases h0 : openOk 0 <;>
      simp [MergedScript.restart_and_reconnect, MergedScript.reconnectAttempts,
        MergedScript.max_retries, MergedScript.RESTART_DELAY, h0]
  · cases h0 : openOk 0 <;> cases h1 : openOk 1 <;> cases h2 : openOk 2 <;>
      simp [MergedScript.restart_and_reconnect, MergedScript.reconnectAttempts,
        MergedScript.max_retries, MergedScript.countOpens, h0, h1, h2]
  · intro hall
    have h0 := hall 0 (by omega)
    have h1 := hall 1 (by omega)
    have h2 := hall 2 (by omega)
    simp [MergedScript.restart_and_reconnect, MergedScript.reconnectAttempts,
      MergedScript.max_retries, MergedScript.RESTART_DELAY, h0, h1, h2]
  · intro k hk hsucc hprev
    match k with
    | 0 =>
      simp [MergedScript.restart_and_reconnect, MergedScript.reconnectAttempts,
        MergedScript.max_retries, MergedScript.RESTART_DELAY, hsucc]
    | 1 =>
      have h0 := hprev 0 (by omega)
      simp [MergedScript.restart_and_reconnect, MergedScript.reconnectAttempts,
        MergedScript.max_retries, MergedScript.RESTART_DELAY, h0, hsucc,
        List.range_succ]
    | 2 =>
      have h0 := hprev 0 (by omega)
      have h1 := hprev 1 (by omega)
      simp [MergedScript.restart_and_reconnect, MergedScript.reconnectAttempts,
        MergedScript.max_retries, MergedScript.RESTART_DELAY, h0, h1, hsucc,
        List.range_succ]

/-- Witness for C9: all three attempts fail for the constantly failing
opener, and the opener succeeding first on attempt 1 stops after its
second attempt and waits for readiness. -/
theorem C9_reconnect_bounded_retry_witness :
    MergedScript.restart_and_reconnect (fun _ => false) =
      ([MergedScript.RAct.closePort, MergedScript.RAct.sleepSec 6,
        MergedScript.RAct.tryOpen 0, MergedScript.RAct.sleepSec 2,
        MergedScript.RAct.tryOpen 1, MergedScript.RAct.sleepSec 2,
        MergedScript.RAct.tryOpen 2], false)
    ∧ MergedScript.restart_and_reconnect (fun a => decide (a = 1)) =
      ([MergedScript.RAct.closePort, MergedScript.RAct.sleepSec 6]
        ++ (List.range 1).flatMap
            (fun j => [MergedScript.RAct.tryOpen j, MergedScript.RAct.sleepSec 2])
        ++ [MergedScript.RAct.tryOpen 1, MergedScript.RAct.sleepSec 2,
            MergedScript.RAct.waitReady], true) :=
  ⟨(C9_reconnect_bounded_retry (fun _ => false)).2.2.1 (fun _ _ => rfl),
    (C9_reconnect_bounded_retry (fun a => decide (a = 1))).2.2.2
      1 (by decide) (by decide) (fun j hj => by
        match j, hj with
        | 0, _ => rfl)⟩

/-- Python's substring containment test `needle in hay`, as an executable
search: some position of `hay` starts with `needle`. -/
def strIn (needle hay : String) : Bool :=
  (List.range (hay.data.length + 1)).any fun i => needle.data.isPrefixOf (hay.data.drop i)

/-- Correctness of the substring search: it succeeds exactly when the
needle occurs contiguously inside the haystack. -/
theorem strIn_iff (needle hay : String) :
    strIn needle hay = true ↔ needle.data <:+: hay.data := by
  unfold strIn
  rw [List.any_eq_true]
  constructor
  · rintro ⟨i, hmem, hp⟩
    rw [ List.isPrefixOf_iff_prefix] at hp
    exact List.infix_iff_prefix_suffix.mpr ⟨hay.data.drop i, hp, List.drop_suffix i hay.data⟩
  · rintro ⟨s, t, hst⟩
    refine ⟨s.length, ?_, ?_⟩
    · rw [List.mem_range]
      have hlen := congrArg List.length hst
      simp only [List.length_append] at hlen
      omega
    · rw [ List.isPrefixOf_iff_prefix]
      have hdrop : hay.data.drop s.length = needle.data ++ t := by
        rw [← hst, List.append_assoc, List.drop_left]
      rw [hdrop]
      exact ⟨t, rfl⟩

namespace SegmentConfigTest

/-- Positive branch of `wait_for_ack` of `SegmentConfig_test.py`
(lines 91-99): the line is an acknowledgement when it contains one of the
four literal substrings. -/
def ack_positive (line : String) : Bool :=
  strIn "-> Sent ACK" line || strIn "OK: Segment" line
    || strIn "OK: All segment configurations received" line
    || strIn "OK: All effects sent." line

/-- Negative branch of `wait_for_ack` of `SegmentConfig_test.py`
(line 101): a non-acknowledgement line containing "ERR:" or "error" is an
error. -/
def ack_negative (line : String) : Bool :=
  strIn "ERR:" line || strIn "error" line

/-- Embedding of `wait_for_ack` of `SegmentConfig_test.py` (lines
82-106) over the finite sequence of lines arriving before the timeout:
scan lines in order; an acknowledgement line yields success, otherwise an
error line yields failure, otherwise keep reading; timeout (end of
input) is failure. -/
def wait_for_ack : List String → Bool
  | [] => false
  | line :: rest =>
    if ack_positive line then true
    else if ack_negative line then false
    else wait_for_ack rest

end SegmentConfigTest

namespace LoadCapeConfig

/-- Positive branch of `wait_for_ack` of `LoadCapeConfig.py` (line 56):
the line is accepted when it contains "-> Sent ACK" or any "OK:". -/
def ack_positive (line : String) : Bool :=
  strIn "-> Sent ACK" line || strIn "OK:" line

/-- Negative branch of `wait_for_ack` of `LoadCapeConfig.py` (line 59). -/
def ack_negative (line : String) : Bool :=
  strIn "ERR:" line

/-- Embedding of `wait_for_ack` of `LoadCapeConfig.py` (lines 48-64)
over the finite sequence of lines arriving before the timeout. -/
def wait_for_ack : List String → Bool
  | [] => false
  | line :: rest =>
    if ack_positive line then true
    else if ack_negative line then false
    else wait_for_ack rest

end LoadCapeConfig

namespace MergedScript

/-- Constant `DEVICE_READY_MSG` of `New_Test_script_merged.py` line 23. -/
def DEVICE_READY_MSG : String := "Setup complete. Entering main loop..."

/-- Readiness test applied to the accumulated receive buffer by
`wait_for_device_ready` of `New_Test_script_merged.py` (lines 118-132):
the device is considered ready when the buffer contains the ready
message, or one of the alternative signals "BLE Manager initialized" or
"Advertising". -/
def ready_buffer_ok (buffer : String) : Bool :=
  strIn DEVICE_READY_MSG buffer || strIn "BLE Manager initialized" buffer
    || strIn "Advertising" buffer

end MergedScript

/-- C8 counterexample: the readiness detector accepts the buffer
"BLE Manager initialized", which does not contain
"Setup complete. Entering main loop...", and the acknowledgement
detector of `LoadCapeConfig.py` accepts the line
"OK: Brightness set to 150", which contains none of the four claimed
acknowledgement substrings - so text other than the claimed strings is
accepted as acknowledgement and readiness signals. -/
theorem C8_counterexample :
    MergedScript.ready_buffer_ok "BLE Manager initialized" = true
    ∧ strIn MergedScript.DEVICE_READY_MSG "BLE Manager initialized" = false
    ∧ LoadCapeConfig.wait_for_ack ["OK: Brightness set to 150"] = true
    ∧ strIn "-> Sent ACK" "OK: Brightness set to 150" = false
    ∧ strIn "OK: Segment" "OK: Brightness set to 150" = false
    ∧ strIn "OK: All segment configurations received" "OK: Brightness set to 150" = false
    ∧ strIn "OK: All effects sent." "OK: Brightness set to 150" = false := by
  refine ⟨?_, ?_, ?_, ?_, ?_, ?_, ?_⟩ <;> decide

/-- C8 amended: the acknowledgement detector of `SegmentConfig_test.py`
treats a line as a positive acknowledgement exactly when it contains one
of the four literal substrings, and (when not positive) as failure
exactly when it contains "ERR:" or "error", scanning lines in that
priority order; the detector of `LoadCapeConfig.py` additionally accepts
every line containing "OK:"; and the readiness detector accepts exactly
the buffers containing "Setup complete. Entering main loop..." or one of
the alternative signals "BLE Manager initialized" or "Advertising". -/
theorem C8_amended_detectors :
    (∀ line : String, SegmentConfigTest.ack_positive line = true ↔
      ("-> Sent ACK").data <:+: line.data ∨ ("OK: Segment").data <:+: line.data
        ∨ ("OK: All segment configurations received").data <:+: line.data
        ∨ ("OK: All effects sent.").data <:+: line.data)
    ∧ (∀ line : String, SegmentConfigTest.ack_negative line = true ↔
        ("ERR:").data <:+: line.data ∨ ("error").data <:+: line.data)
    ∧ (∀ (line : String) (rest : List String),
        SegmentConfigTest.wait_for_ack (line :: rest) =
          if SegmentConfigTest.ack_positive line then true
          else if SegmentConfigTest.ack_negative line then false
          else SegmentConfigTest.wait_for_ack rest)
    ∧ (∀ line : String, LoadCapeConfig.ack_positive line = true ↔
        ("-> Sent ACK").data <:+: line.data ∨ ("OK:").data <:+: line.data)
    ∧ (∀ buffer : String, MergedScript.ready_buffer_ok buffer = true ↔
        (MergedScript.DEVICE_READY_MSG).data <:+: buffer.data
          ∨ ("BLE Manager initialized").data <:+: buffer.data
          ∨ ("Advertising").data <:+: buffer.data) := by
  refine ⟨?_, ?_, fun line rest => rfl, ?_, ?_⟩
  · intro line
    simp [SegmentConfigTest.ack_positive, strIn_iff, or_assoc]
  · intro line
    simp [SegmentConfigTest.ack_negative, strIn_iff]
  · intro line
    simp [LoadCapeConfig.ack_positive, strIn_iff]
  · intro buffer
    simp [MergedScript.ready_buffer_ok, strIn_iff, or_assoc]
